import Mathlib

/-!
# WideSky — a shallow embedding of the core pipeline, with verified claims

This file embeds the relevant parts of the WideSky firehose-ingest pipeline
(`widesky.py`, `widesky_processor.py`, `widesky_db.py`) as executable Lean
definitions and proves or refutes the specification claims about them.

The Python code navigates dynamically typed JSON-like data.  We model Python
values with the inductive type `PyVal`; `dict.get` is modelled by `pyGet`
(returning `PyVal.none` for a missing key and raising `AttributeError` when
the receiver is not a dict, as Python does).  Fallible code is modelled in
the `Except PyErr` monad.
-/

namespace WideSky

/-- Python runtime errors that the modelled code can raise. -/
inductive PyErr where
  | attributeError
  | typeError
  | unboundLocalError
  | connectionError
  | fatalError
  | queueFull
deriving DecidableEq

/-- A dynamically typed Python value (the subset the pipeline manipulates):
`None`, booleans, strings, lists and string-keyed dicts. -/
inductive PyVal where
  | none
  | bool (b : Bool)
  | str (s : String)
  | list (xs : List PyVal)
  | dict (kvs : List (String × PyVal))

/-- `d.get(k)`: on a dict, return the value for `k` (or `None` when the key is
missing); on any other value Python raises `AttributeError` (`.get` of
`None`/`str`/… does not exist). -/
def pyGet : PyVal → String → Except PyErr PyVal
  | .dict kvs, k => .ok (((kvs.find? (fun kv => kv.1 = k)).map (fun kv => kv.2)).getD .none)
  | _, _ => .error .attributeError

mutual
/-- Python `repr` for the modelled values (used by `str` on non-strings).
Python writes string quotes with apostrophes; double quotes are used here,
which is observationally equivalent for every claim (the result only feeds
a terminal-dotted-segment split that no repr output matches). -/
def pyRepr : PyVal → String
  | .none => "None"
  | .bool true => "True"
  | .bool false => "False"
  | .str s => "\"" ++ s ++ "\""
  | .list xs => "[" ++ pyReprList xs ++ "]"
  | .dict kvs => "\x7b" ++ pyReprDict kvs ++ "\x7d"

def pyReprList : List PyVal → String
  | [] => ""
  | [x] => pyRepr x
  | x :: xs => pyRepr x ++ ", " ++ pyReprList xs

def pyReprDict : List (String × PyVal) → String
  | [] => ""
  | [(k, v)] => "\"" ++ k ++ "\": " ++ pyRepr v
  | (k, v) :: kvs => "\"" ++ k ++ "\": " ++ pyRepr v ++ ", " ++ pyReprDict kvs
end

/-- Python `str(x)`: the identity on strings, `repr` otherwise. -/
def pyStr : PyVal → String
  | .str s => s
  | v => pyRepr v

/-- `s.split(".")[-1]`: the suffix of `s` after its last `.` (the whole of
`s` when it has no dot), exactly Python's last split component. -/
def lastSegAux : List Char → String → String
  | [], acc => acc
  | c :: cs, acc => if c = '.' then lastSegAux cs "" else lastSegAux cs (acc.push c)

/-- Terminal dotted segment of a string, as `str(x).split(".")[-1]` computes it. -/
def lastSeg (s : String) : String := lastSegAux s.data ""

/-- Python iteration `for x in v`: lists yield their elements, dicts their
keys, strings their characters; iterating `None` or a bool raises
`TypeError`. -/
def pyIter : PyVal → Except PyErr (List PyVal)
  | .list xs => .ok xs
  | .dict kvs => .ok (kvs.map (fun kv => .str kv.1))
  | .str s => .ok (s.data.map (fun c => .str (String.singleton c)))
  | _ => .error .typeError

/-- The loop `for images in …: image_refs.append(images.get("image").get("ref"))`
from `WideSkyProcessor._process_embeds`. -/
def collectImageRefs : List PyVal → Except PyErr (List PyVal)
  | [] => .ok []
  | img :: rest => do
    let image ← pyGet img "image"
    let r ← pyGet image "ref"
    let rs ← collectImageRefs rest
    return r :: rs

/-- The embed/record columns of the post storage frame built by
`WideSkyProcessor._process_post`.  Fields that the Python code mutates with
values of changing type (`embed_type`, `embed_refs`, `external_uri`,
`record_cid`, `record_uri`) are kept as `PyVal`. -/
structure StorageFrame where
  has_embed : Bool
  embed_type : PyVal
  embed_refs : PyVal
  external_uri : PyVal
  has_record : Bool
  record_cid : PyVal
  record_uri : PyVal

/-- The initial embed/record fields of `storage_frame` in
`WideSkyProcessor._process_post`. -/
def initialStorageFrame : StorageFrame :=
  { has_embed := false
    embed_type := .str ""
    embed_refs := .list []
    external_uri := .str ""
    has_record := false
    record_cid := .str ""
    record_uri := .str "" }

/-- `WideSkyProcessor._process_embeds`, translated statement by statement.
An exception raised by an attribute access propagates (in the program it is
caught at the frame boundary in `_process_message`, dropping the frame). -/
def processEmbeds (data_block : PyVal) (storage_frame : StorageFrame) :
    Except PyErr StorageFrame := do
  let embed ← pyGet data_block "embed"
  match embed with
  | .none => return storage_frame
  | _ =>
    let et ← pyGet embed "$type"
    let storage_frame := { storage_frame with embed_type := et }
    let embed_type := lastSeg (pyStr et)
    match embed_type with
    | "video" => do
      let v ← pyGet embed "video"
      let r ← pyGet v "ref"
      return { storage_frame with has_embed := true, embed_refs := .list [r] }
    | "images" => do
      let imgsVal ← pyGet embed "images"
      let imgs ← pyIter imgsVal
      let image_refs ← collectImageRefs imgs
      return { storage_frame with has_embed := true, embed_refs := .list image_refs }
    | "external" => do
      let e ← pyGet embed "external"
      let u ← pyGet e "uri"
      return { storage_frame with has_embed := true, external_uri := .list [u] }
    | "record" => do
      let r ← pyGet embed "record"
      let c ← pyGet r "cid"
      let u ← pyGet r "uri"
      return { storage_frame with
               has_embed := false
               has_record := true
               record_cid := .list [c]
               record_uri := u }
    | "" => return storage_frame
    | "recordWithMedia" => do
      let rec1 ← pyGet embed "record"
      let rec2 ← pyGet rec1 "record"
      let c ← pyGet rec2 "cid"
      let u ← pyGet rec2 "uri"
      let m ← pyGet embed "media"
      let mt ← pyGet m "$type"
      let media_type := lastSeg (pyStr mt)
      let storage_frame := { storage_frame with
                             has_embed := true
                             has_record := true
                             record_cid := .list [c]
                             record_uri := u
                             embed_type := .str media_type }
      match media_type with
      | "video" => do
        let v ← pyGet m "video"
        let r ← pyGet v "ref"
        return { storage_frame with embed_refs := .list [r] }
      | "images" => do
        let imgsVal ← pyGet m "images"
        let imgs ← pyIter imgsVal
        let image_refs ← collectImageRefs imgs
        return { storage_frame with embed_refs := .list image_refs }
      | "external" => do
        let e ← pyGet m "external"
        let u2 ← pyGet e "uri"
        return { storage_frame with external_uri := .list [u2] }
      | _ => return storage_frame
    | _ => return storage_frame

/-! ## Concrete embed payload builders used by the theorems -/

/-- One entry of an `images` embed list: `{image:{ref:r}}`. -/
def mkImageEntry (r : String) : PyVal := .dict [("image", .dict [("ref", .str r)])]

/-- A data block whose `embed` key holds `e`. -/
def mkDataBlock (e : PyVal) : PyVal := .dict [("embed", e)]

/-- `{$type:"app.bsky.embed.recordWithMedia", record:{record:{cid,uri}}, media}`. -/
def mkRecordWithMedia (rc ru : String) (media : PyVal) : PyVal :=
  .dict [("$type", .str "app.bsky.embed.recordWithMedia"),
         ("record", .dict [("record", .dict [("cid", .str rc), ("uri", .str ru)])]),
         ("media", media)]

/-- `{$type:"app.bsky.embed.video", video:{ref}}`. -/
def mkVideoEmbed (vr : String) : PyVal :=
  .dict [("$type", .str "app.bsky.embed.video"), ("video", .dict [("ref", .str vr)])]

/-- `{$type:"app.bsky.embed.images", images:[{image:{ref}}...]}`. -/
def mkImagesEmbed (refs : List String) : PyVal :=
  .dict [("$type", .str "app.bsky.embed.images"), ("images", .list (refs.map mkImageEntry))]

/-- `{$type:"app.bsky.embed.external", external:{uri}}`. -/
def mkExternalEmbed (eu : String) : PyVal :=
  .dict [("$type", .str "app.bsky.embed.external"), ("external", .dict [("uri", .str eu)])]

/-- `{$type:"app.bsky.embed.record", record:{cid,uri}}`. -/
def mkRecordEmbed (rc ru : String) : PyVal :=
  .dict [("$type", .str "app.bsky.embed.record"),
         ("record", .dict [("cid", .str rc), ("uri", .str ru)])]

/-- Whether a value is a Python list. -/
def PyVal.isList : PyVal → Bool
  | .list _ => true
  | _ => false

/-! ## The posts table schema (`WideSkyPSQL._ensure_posts_table`) -/

/-- The columns of `CREATE TABLE posts`, paired with whether the declared SQL
type is an array type (`TEXT ARRAY`). -/
def postsTableColumns : List (String × Bool) :=
  [("cid", false), ("created_at", false), ("did", false), ("commit", false),
   ("text", false), ("langs", true), ("facets", false), ("has_embed", false),
   ("embed_type", false), ("embed_refs", true), ("external_uri", false),
   ("has_record", false), ("record_cid", false), ("record_uri", false),
   ("is_reply", false), ("reply_root_cid", false), ("reply_root_uri", false),
   ("reply_parent_cid", false), ("reply_parent_uri", false)]

/-- Whether a posts column is declared with an array type. -/
def postsColumnIsArray (c : String) : Bool :=
  ((postsTableColumns.find? (fun kv => kv.1 = c)).map (fun kv => kv.2)).getD false

/-! ## The users table and `WideSkyPSQL._batch_insert_user` -/

/-- A stored row of the `users` table (the `did` primary key is the lookup
key of the table, see `UsersTable`). -/
structure UserEntry where
  first_known_as : String
  also_known_as_full : List String
deriving DecidableEq

/-- One element of `processed_batch`: the dict
`{did, first_known_as, also_known_as_full}` passed to `executemany`. -/
structure UserRow where
  did : String
  first_known_as : String
  also_known_as_full : List String

/-- The `users` table: `did` is the primary key, so the table is a partial
map from identifiers to rows. -/
def UsersTable := String → Option UserEntry

/-- One row of the `INSERT INTO users … ON CONFLICT (did) DO UPDATE` upsert:
a fresh `did` inserts the row; a conflicting `did` replaces
`also_known_as_full` exactly when the incoming list has strictly greater
cardinality, and leaves `first_known_as` untouched (it is absent from the
`SET` clause). -/
def upsertUser (t : UsersTable) (row : UserRow) : UsersTable := fun d =>
  if d = row.did then
    match t row.did with
    | Option.none => some ⟨row.first_known_as, row.also_known_as_full⟩
    | some e =>
      some ⟨e.first_known_as,
        if e.also_known_as_full.length < row.also_known_as_full.length
        then row.also_known_as_full else e.also_known_as_full⟩
  else t d

/-- The `executemany` of a processed batch: the statement runs once per row,
in order. -/
def batchUpsertUsers (t : UsersTable) (rows : List UserRow) : UsersTable :=
  rows.foldl upsertUser t

/-- The enrichment loop at the top of `_batch_insert_user`: for each queued
identifier run `_check_user` (modelled by the oracle `check`, returning
`none` for an already-stored identifier, `some (first, alternates)` from the
directory otherwise, or raising).  The loop body has no exception handler,
so a raise propagates and abandons the rest of the loop. -/
def buildProcessedBatch (check : String → Except PyErr (Option (String × List String))) :
    List String → Except PyErr (List UserRow)
  | [] => .ok []
  | d :: rest => do
    let ifexists ← check d
    let tail ← buildProcessedBatch check rest
    match ifexists with
    | Option.none => return tail
    | some fk => return ⟨d, fk.1, fk.2⟩ :: tail

/-- `_batch_insert_user` end to end: build `processed_batch` (exceptions
propagate to the worker's catch-all), then run the upsert batch. -/
def batchInsertUser (check : String → Except PyErr (Option (String × List String)))
    (t : UsersTable) (batch : List String) : Except PyErr UsersTable := do
  let pb ← buildProcessedBatch check batch
  return batchUpsertUsers t pb

/-- The tenacity `@retry(wait=wait_exponential(…))` decorator on
`WideSkyUserLookup.lookup_user` has no stop condition: attempt `k` has
outcome `outcomes k`, and the call returns only on the first success.
`retryWithin outcomes fuel` observes the call for `fuel` attempts: `none`
means it has not returned (it is still retrying). -/
def retryWithin {α : Type} (outcomes : Nat → Except PyErr α) : Nat → Option α
  | 0 => Option.none
  | n + 1 =>
    match outcomes 0 with
    | .ok a => some a
    | .error _ => retryWithin (fun k => outcomes (k + 1)) n

/-! ## The firehose listener (`widesky.py`, `firehose_listener`) -/

def FIREHOSE_RECONNECT_BASE_DELAY : Nat := 5

def FIREHOSE_RECONNECT_MAX_DELAY : Nat := 60

/-- One connection attempt, seen from the listener loop: either the connect
call fails outright, or a connection is established and receives `msgs`
messages before the transport fails or closes. -/
inductive ConnEvent where
  | connectFail
  | session (msgs : Nat)

/-- One iteration of the `while True` loop of `firehose_listener`.  The loop
variable `reconnect_attempt` is assigned `0` only inside the `async with`
block, after a connection is established; on a session it is therefore `0`
at the `except` handler regardless of how many messages were received.  The
delay computation after the handlers reads the variable: when it was never
assigned (first connect attempt failed) Python raises `UnboundLocalError`,
which nothing in the function catches.  On success the iteration returns
(delay slept, value of `reconnect_attempt` after the increment). -/
def firehoseListenerStep (reconnect_attempt : Option Nat) (ev : ConnEvent) :
    Except PyErr (Nat × Nat) :=
  let attempt : Option Nat :=
    match ev with
    | .connectFail => reconnect_attempt
    | .session _ => some 0
  match attempt with
  | Option.none => .error .unboundLocalError
  | some a =>
    .ok (min (FIREHOSE_RECONNECT_BASE_DELAY * 2 ^ a) FIREHOSE_RECONNECT_MAX_DELAY, a + 1)

/-- Run the listener loop over a sequence of connection events, collecting
the reconnect delays it sleeps; an uncaught exception terminates the task. -/
def firehoseListenerRun (reconnect_attempt : Option Nat) :
    List ConnEvent → Except PyErr (List Nat)
  | [] => .ok []
  | ev :: evs => do
    let r ← firehoseListenerStep reconnect_attempt ev
    let rest ← firehoseListenerRun (some r.2) evs
    return r.1 :: rest

/-! ## The persistence worker loop (`WideSkyPSQL._worker`) -/

/-- `WideSkyPSQL.__init__` defaults. -/
def defaultNumWorkers : Nat := 5

def defaultBatchSize : Nat := 100

def defaultBatchTimeout : ℚ := 3

/-- A value taken from the persistence queue: the `-1` shutdown sentinel or a
`{"request": kind, "data": data}` dict. -/
inductive QueueMsg where
  | sentinel
  | req (kind : String) (data : PyVal)

/-- Outcome of the `asyncio.wait_for(queue.get(), timeout)` call: a message,
or `asyncio.TimeoutError` (after which `queued_message = None`). -/
inductive TickOutcome where
  | msg (m : QueueMsg)
  | timeout

/-- The per-worker mutable state: the four per-kind in-memory batches and
the `last_flush` timestamp (event-loop time, modelled exactly as a
rational). -/
structure WorkerState where
  user_batch : List PyVal
  post_batch : List PyVal
  repost_batch : List PyVal
  like_batch : List PyVal
  last_flush : ℚ

/-- The `match queued_message["request"]` dispatch: append the data to the
batch of its kind (an unknown kind appends nowhere); a timeout tick appends
nothing. -/
def appendMsg (st : WorkerState) : TickOutcome → WorkerState
  | .msg (.req "insert_user" d) => { st with user_batch := st.user_batch ++ [d] }
  | .msg (.req "insert_post" d) => { st with post_batch := st.post_batch ++ [d] }
  | .msg (.req "insert_repost" d) => { st with repost_batch := st.repost_batch ++ [d] }
  | .msg (.req "insert_like" d) => { st with like_batch := st.like_batch ++ [d] }
  | _ => st

/-- The batches written to the database by one loop iteration (`none` when
the corresponding `_batch_insert_*` was not called). -/
structure IterFlushes where
  user : Option (List PyVal)
  post : Option (List PyVal)
  repost : Option (List PyVal)
  like : Option (List PyVal)

/-- Result of one loop iteration: `exit` (the sentinel `break`, taken before
any flush check runs) or `cont` with the new state and the flushes
performed.  Both record the `timeout` that was passed to `wait_for`. -/
inductive IterOut where
  | exit (timeout : ℚ)
  | cont (st : WorkerState) (fl : IterFlushes) (timeout : ℚ)

/-- Whether the tick was a timeout (`queued_message is None`). -/
def isTimeoutTick : TickOutcome → Bool
  | .timeout => true
  | _ => false

/-- One iteration of the `while True` loop of `WideSkyPSQL._worker`:
compute `timeout = max(0, batch_timeout - (now - last_flush))`, wait (the
outcome is `tick`), `break` on the sentinel, otherwise append the message
(if any) to its batch and then, for each of the four batches independently,
flush it when its length has reached `batch_size` or the tick was a timeout
and the batch is non-empty, setting `last_flush` to `now` on every flush. -/
def workerIter (batch_size : Nat) (batch_timeout : ℚ) (st0 : WorkerState)
    (now : ℚ) (tick : TickOutcome) : IterOut :=
  let timeout := max 0 (batch_timeout - (now - st0.last_flush))
  match tick with
  | .msg .sentinel => .exit timeout
  | _ =>
    let isNone := isTimeoutTick tick
    let st1 := appendMsg st0 tick
    let doUser := decide (batch_size ≤ st1.user_batch.length) ||
      (isNone && !st1.user_batch.isEmpty)
    let doPost := decide (batch_size ≤ st1.post_batch.length) ||
      (isNone && !st1.post_batch.isEmpty)
    let doRepost := decide (batch_size ≤ st1.repost_batch.length) ||
      (isNone && !st1.repost_batch.isEmpty)
    let doLike := decide (batch_size ≤ st1.like_batch.length) ||
      (isNone && !st1.like_batch.isEmpty)
    let anyFlush := doUser || doPost || doRepost || doLike
    .cont
      { user_batch := if doUser then [] else st1.user_batch
        post_batch := if doPost then [] else st1.post_batch
        repost_batch := if doRepost then [] else st1.repost_batch
        like_batch := if doLike then [] else st1.like_batch
        last_flush := if anyFlush then now else st0.last_flush }
      { user := if doUser then some st1.user_batch else Option.none
        post := if doPost then some st1.post_batch else Option.none
        repost := if doRepost then some st1.repost_batch else Option.none
        like := if doLike then some st1.like_batch else Option.none }
      timeout

/-! ## The queues (`asyncio.Queue`) -/

/-- An `asyncio.Queue`: `maxsize` as passed to the constructor (`0`, the
default, means an unbounded queue) and the queued items. -/
structure AsyncQueue where
  maxsize : Nat
  items : List PyVal

/-- `Queue.full()`: with `maxsize <= 0` the queue is never full. -/
def AsyncQueue.full (q : AsyncQueue) : Bool :=
  decide (0 < q.maxsize) && decide (q.maxsize ≤ q.items.length)

/-- `Queue.put_nowait(x)`: raise `QueueFull` when the queue is full,
otherwise append without blocking. -/
def AsyncQueue.putNowait (q : AsyncQueue) (x : PyVal) : Except PyErr AsyncQueue :=
  if q.full then .error .queueFull else .ok { q with items := q.items ++ [x] }

/-- `n` successive `put_nowait` calls of the same item. -/
def AsyncQueue.putN (q : AsyncQueue) (x : PyVal) : Nat → Except PyErr AsyncQueue
  | 0 => .ok q
  | n + 1 => do
    let q1 ← q.putNowait x
    q1.putN x n

/-- `WideSkyProcessor.__init__`: `self._message_queue = asyncio.Queue()`
(constructed with the default `maxsize=0`). -/
def processorMessageQueue : AsyncQueue := { maxsize := 0, items := [] }

/-- `WideSkyPSQL.__init__`: `self._process_queue = asyncio.Queue()`
(constructed with the default `maxsize=0`). -/
def psqlProcessQueue : AsyncQueue := { maxsize := 0, items := [] }

/-! ## The shutdown path (`main`, `WideSkyProcessor.close`, `WideSkyPSQL.close`) -/

/-- The externally visible effects of the shutdown code. -/
inductive ShutdownAction where
  | cancelSupervisor
  | closeHttpxClient
  | closeDbConn
  | putDbSentinel
  | gatherDbWorkers
  | putProcSentinel
  | gatherProcWorkers
deriving DecidableEq

/-- The statements of `WideSkyPSQL.close`, in source order, as the effect
sequence the coroutine performs when it is actually awaited: close the
directory (httpx) client, close `self.conn`, then enqueue one `-1` sentinel
per persistence worker and gather the workers. -/
def wideSkyPSQLCloseBody (M : Nat) : List ShutdownAction :=
  [.closeHttpxClient, .closeDbConn] ++ List.replicate M .putDbSentinel ++ [.gatherDbWorkers]

/-- The attributes ever assigned on a `WideSkyPSQL` instance (`__init__` and
`create`).  `WideSkyPSQL.close` reads `self.conn`, which is not among them. -/
def wideSkyPSQLAttrs : List String :=
  ["_process_queue", "_workers", "_num_workers", "_batch_size", "_batch_timeout",
   "_user_lookup", "pool"]

/-- The effects executed by `WideSkyProcessor.close`: the first statement,
`self._wisp.close()`, calls the async method without `await`, so the
coroutine object it creates is never executed and contributes no effects;
the method then enqueues one `-1` sentinel per processing worker and
gathers the processing workers. -/
def wideSkyProcessorCloseActions (M : Nat) : List ShutdownAction :=
  ([] : List ShutdownAction) ++ List.replicate M .putProcSentinel ++ [.gatherProcWorkers]

/-- The shutdown path of `main()` once the shutdown event fires: cancel the
supervisor task, await its cancellation, then `await processor.close()`. -/
def mainShutdownActions (M : Nat) : List ShutdownAction :=
  .cancelSupervisor :: wideSkyProcessorCloseActions M

/-! ## Concrete instances used by witnesses and counterexamples -/

/-- A one-user `users` table: `did:plc:a` with a single known handle. -/
def sampleUsersTable : UsersTable :=
  fun d => if d = "did:plc:a" then some ⟨"a.bsky.social", ["a.bsky.social"]⟩ else Option.none

/-- A re-observation of `did:plc:a` advertising a longer handle list. -/
def sampleIncomingRow : UserRow :=
  ⟨"did:plc:a", "x.bsky.social", ["a.bsky.social", "a-alias.test"]⟩

/-- A `_check_user` oracle: the per-request processing of `did:a` raises a
fatal (unrecoverable) error, while `did:b` resolves from the directory. -/
def exampleCheck : String → Except PyErr (Option (String × List String))
  | "did:b" => .ok (some ("b.bsky.social", ["b.bsky.social"]))
  | _ => .error .fatalError

/-! # Theorems -/

/-- Helper: one upsert preserves `first_known_as` and never shrinks the
stored handle list of any identifier already in the table. -/
theorem upsertUser_mono (t : UsersTable) (row : UserRow) (did : String)
    (e : UserEntry) (h : t did = some e) :
    ∃ e2, upsertUser t row did = some e2 ∧
      e2.first_known_as = e.first_known_as ∧
      e.also_known_as_full.length ≤ e2.also_known_as_full.length := by
  unfold upsertUser
  by_cases hd : did = row.did
  · subst hd
    rw [if_pos rfl, h]
    refine ⟨_, rfl, rfl, ?_⟩
    by_cases hl : e.also_known_as_full.length < row.also_known_as_full.length
    · simpa [hl] using le_of_lt hl
    · simp [hl]
  · rw [if_neg hd, h]
    exact ⟨e, rfl, rfl, le_refl _⟩

/-- Helper: `upsertUser_mono` extended along one `executemany` batch. -/
theorem batchUpsertUsers_mono (rows : List UserRow) (t : UsersTable) (did : String)
    (e : UserEntry) (h : t did = some e) :
    ∃ e2, batchUpsertUsers t rows did = some e2 ∧
      e2.first_known_as = e.first_known_as ∧
      e.also_known_as_full.length ≤ e2.also_known_as_full.length := by
  induction rows generalizing t e with
  | nil => exact ⟨e, h, rfl, le_refl _⟩
  | cons row rest ih =>
    obtain ⟨e1, h1, hf1, hl1⟩ := upsertUser_mono t row did e h
    obtain ⟨e2, h2, hf2, hl2⟩ := ih (upsertUser t row) e1 h1
    exact ⟨e2, h2, hf2.trans hf1, hl1.trans hl2⟩

/-- C1: for every author identifier, the users upsert rewrites the stored
`also_known_as_full` exactly when the incoming list has strictly greater
cardinality (otherwise the stored list is retained), `first_known_as` is
never overwritten, and consequently the stored list length is
non-decreasing across any sequence of user batch inserts. -/
theorem C1_users_upsert_monotone :
    (∀ (t : UsersTable) (row : UserRow) (e : UserEntry), t row.did = some e →
      upsertUser t row row.did =
        some ⟨e.first_known_as,
          if e.also_known_as_full.length < row.also_known_as_full.length
          then row.also_known_as_full else e.also_known_as_full⟩) ∧
    (∀ (t : UsersTable) (batches : List (List UserRow)) (did : String) (e : UserEntry),
      t did = some e →
      ∃ e2, batches.foldl batchUpsertUsers t did = some e2 ∧
        e2.first_known_as = e.first_known_as ∧
        e.also_known_as_full.length ≤ e2.also_known_as_full.length) := by
  constructor
  · intro t row e h
    unfold upsertUser
    rw [if_pos rfl, h]
  · intro t batches did e h
    induction batches generalizing t e with
    | nil => exact ⟨e, h, rfl, le_refl _⟩
    | cons b rest ih =>
      obtain ⟨e1, h1, hf1, hl1⟩ := batchUpsertUsers_mono b t did e h
      obtain ⟨e2, h2, hf2, hl2⟩ := ih (batchUpsertUsers t b) e1 h1
      exact ⟨e2, h2, hf2.trans hf1, hl1.trans hl2⟩

/-- Witness for C1 at a concrete table and row: `did:plc:a` holds one
handle, the incoming row advertises two, and the stored entry widens while
`first_known_as` survives. -/
theorem C1_witness :
    (sampleUsersTable "did:plc:a" = some ⟨"a.bsky.social", ["a.bsky.social"]⟩ ∧
      upsertUser sampleUsersTable sampleIncomingRow "did:plc:a" =
        some ⟨"a.bsky.social",
          if (["a.bsky.social"] : List String).length <
              (["a.bsky.social", "a-alias.test"] : List String).length
          then ["a.bsky.social", "a-alias.test"] else ["a.bsky.social"]⟩) ∧
    (∃ e2, ([[sampleIncomingRow]] : List (List UserRow)).foldl batchUpsertUsers
          sampleUsersTable "did:plc:a" = some e2 ∧
        e2.first_known_as = "a.bsky.social" ∧
        (["a.bsky.social"] : List String).length ≤ e2.also_known_as_full.length) :=
  ⟨⟨rfl, C1_users_upsert_monotone.1 sampleUsersTable sampleIncomingRow
      ⟨"a.bsky.social", ["a.bsky.social"]⟩ rfl⟩,
   C1_users_upsert_monotone.2 sampleUsersTable [[sampleIncomingRow]] "did:plc:a"
      ⟨"a.bsky.social", ["a.bsky.social"]⟩ rfl⟩

/-- C2 (code bug): the claim says every transport failure is non-fatal,
including a failure of the very first connection attempt.  In the code
`reconnect_attempt` is first assigned inside the success block, so when the
very first connect fails the delay computation reads an unbound local and
the listener task dies with `UnboundLocalError` instead of sleeping and
retrying.  Once any connection has been established (binding the variable),
later transport failures do follow the log/wait/retry path with delay
`min(5 * 2^attempt, 60)`, as the second conjunct shows. -/
theorem C2_first_failure_crashes :
    firehoseListenerRun Option.none [ConnEvent.connectFail] =
      .error PyErr.unboundLocalError ∧
    (∀ a, firehoseListenerStep (some a) .connectFail =
      .ok (min (FIREHOSE_RECONNECT_BASE_DELAY * 2 ^ a) FIREHOSE_RECONNECT_MAX_DELAY, a + 1)) :=
  ⟨rfl, fun _ => rfl⟩

/-- Counterexample to C3 as stated: two consecutive connections that open
and then close without receiving a single message.  The claim predicts the
delay sequence `5, 10`; the code resets `reconnect_attempt` to `0` as soon
as the connection is established (before any message), so it sleeps `5, 5`. -/
theorem C3_counterexample :
    firehoseListenerRun Option.none [ConnEvent.session 0, ConnEvent.session 0] =
      .ok [5, 5] ∧
    firehoseListenerRun Option.none [ConnEvent.session 0, ConnEvent.session 0] ≠
      .ok [5, 10] := by
  refine ⟨rfl, fun h => ?_⟩
  have h5 : (Except.ok [5, 5] : Except PyErr (List Nat)) = .ok [5, 10] := h
  simp at h5

/-- Helper: a run of establish-then-close-without-a-byte sessions sleeps a
constant 5 seconds before every reconnect, from any starting counter. -/
theorem listenerRun_sessions (k : Nat) :
    ∀ attempt, firehoseListenerRun attempt (List.replicate k (.session 0)) =
      .ok (List.replicate k 5) := by
  induction k with
  | zero => intro attempt; rfl
  | succ n ih =>
    intro attempt
    have step : firehoseListenerRun attempt (List.replicate (n + 1) (.session 0)) =
        (firehoseListenerRun (some 1) (List.replicate n (.session 0))).bind
          (fun rest => .ok (5 :: rest)) := rfl
    rw [step, ih (some 1)]
    rfl

/-- C3 amended: the attempt counter is reset exactly when a connection is
successfully established (before any message is received), so for a
supervisor whose connections open and then close without receiving a byte
the delay sequence is `5, 5, 5, …`; a cold start whose connects fail
outright instead crashes (see C2). -/
theorem C3_amended_reset_on_connect :
    (∀ (attempt : Option Nat) (n : Nat),
      firehoseListenerStep attempt (.session n) = .ok (5, 1)) ∧
    (∀ k, firehoseListenerRun Option.none (List.replicate k (.session 0)) =
      .ok (List.replicate k 5)) :=
  ⟨fun _ _ => rfl, fun k => listenerRun_sessions k Option.none⟩

/-- C4 (code bug): on shutdown the code cancels the supervisor and then
calls `processor.close()`, whose first statement invokes the async
`WideSkyPSQL.close` without `await`, so the persistence stage is never
drained: no sentinel ever reaches the persistence queue and the database
connection is never closed (first three conjuncts).  Even the never-executed
`WideSkyPSQL.close` body closes the directory client and the connection
BEFORE enqueuing the worker sentinels (fourth conjunct), and it reads
`self.conn`, an attribute no code path ever assigns (fifth conjunct). -/
theorem C4_shutdown_never_drains_db :
    mainShutdownActions defaultNumWorkers =
      [.cancelSupervisor, .putProcSentinel, .putProcSentinel, .putProcSentinel,
       .putProcSentinel, .putProcSentinel, .gatherProcWorkers] ∧
    ShutdownAction.putDbSentinel ∉ mainShutdownActions defaultNumWorkers ∧
    ShutdownAction.closeDbConn ∉ mainShutdownActions defaultNumWorkers ∧
    wideSkyPSQLCloseBody defaultNumWorkers =
      [.closeHttpxClient, .closeDbConn, .putDbSentinel, .putDbSentinel, .putDbSentinel,
       .putDbSentinel, .putDbSentinel, .gatherDbWorkers] ∧
    "conn" ∉ wideSkyPSQLAttrs := by
  refine ⟨rfl, ?_, ?_, rfl, ?_⟩ <;> decide

/-- C5: each persistence worker iteration waits up to
`timeout = max(0, BATCH_TIMEOUT - (now - last_flush))` with `BATCH_TIMEOUT = 3`,
and then, for each of the four per-kind batches independently, flushes the
batch exactly when its length has reached `BATCH_SIZE = 100` or the wait
timed out and the batch is non-empty, setting `last_flush` to `now` on every
flush (and leaving it unchanged when nothing flushed). -/
theorem C5_worker_batch_triggers (st : WorkerState) (now : ℚ) (tick : TickOutcome)
    (h : tick ≠ .msg .sentinel) :
    ∃ st2 fl, workerIter defaultBatchSize defaultBatchTimeout st now tick =
        .cont st2 fl (max 0 (3 - (now - st.last_flush))) ∧
      ((fl.user = some ((appendMsg st tick).user_batch) ∨ fl.user = Option.none) ∧
        (fl.user ≠ Option.none ↔
          (100 ≤ (appendMsg st tick).user_batch.length ∨
            (tick = .timeout ∧ (appendMsg st tick).user_batch ≠ [])))) ∧
      ((fl.post = some ((appendMsg st tick).post_batch) ∨ fl.post = Option.none) ∧
        (fl.post ≠ Option.none ↔
          (100 ≤ (appendMsg st tick).post_batch.length ∨
            (tick = .timeout ∧ (appendMsg st tick).post_batch ≠ [])))) ∧
      ((fl.repost = some ((appendMsg st tick).repost_batch) ∨ fl.repost = Option.none) ∧
        (fl.repost ≠ Option.none ↔
          (100 ≤ (appendMsg st tick).repost_batch.length ∨
            (tick = .timeout ∧ (appendMsg st tick).repost_batch ≠ [])))) ∧
      ((fl.like = some ((appendMsg st tick).like_batch) ∨ fl.like = Option.none) ∧
        (fl.like ≠ Option.none ↔
          (100 ≤ (appendMsg st tick).like_batch.length ∨
            (tick = .timeout ∧ (appendMsg st tick).like_batch ≠ [])))) ∧
      ((fl.user ≠ Option.none ∨ fl.post ≠ Option.none ∨ fl.repost ≠ Option.none ∨
          fl.like ≠ Option.none) → st2.last_flush = now) ∧
      (fl.user = Option.none → fl.post = Option.none → fl.repost = Option.none →
        fl.like = Option.none → st2.last_flush = st.last_flush) := by
  cases tick with
  | timeout =>
    refine ⟨_, _, rfl, ?_⟩
    simp only [appendMsg, isTimeoutTick]
    split_ifs <;> simp_all [List.isEmpty_iff, defaultBatchSize]
  | msg m =>
    cases m with
    | sentinel => exact absurd rfl h
    | req k d =>
      refine ⟨_, _, rfl, ?_⟩
      simp only [isTimeoutTick]
      split_ifs <;> simp_all [List.isEmpty_iff, defaultBatchSize] <;> omega

/-- Witness for C5: a worker holding one queued user record, whose wait
times out 4 seconds after the last flush — the timeout clamps to 0 and the
non-empty user batch flushes. -/
theorem C5_witness :
    ∃ st2 fl, workerIter defaultBatchSize defaultBatchTimeout
        ⟨[PyVal.str "did"], [], [], [], 0⟩ 4 TickOutcome.timeout =
        .cont st2 fl (max 0 (3 - ((4 : ℚ) - (⟨[PyVal.str "did"], [], [], [], 0⟩ :
          WorkerState).last_flush))) ∧
      ((fl.user = some ((appendMsg ⟨[PyVal.str "did"], [], [], [], 0⟩
            TickOutcome.timeout).user_batch) ∨ fl.user = Option.none) ∧
        (fl.user ≠ Option.none ↔
          (100 ≤ (appendMsg ⟨[PyVal.str "did"], [], [], [], 0⟩
              TickOutcome.timeout).user_batch.length ∨
            (TickOutcome.timeout = .timeout ∧
              (appendMsg ⟨[PyVal.str "did"], [], [], [], 0⟩
                TickOutcome.timeout).user_batch ≠ [])))) ∧
      ((fl.post = some ((appendMsg ⟨[PyVal.str "did"], [], [], [], 0⟩
            TickOutcome.timeout).post_batch) ∨ fl.post = Option.none) ∧
        (fl.post ≠ Option.none ↔
          (100 ≤ (appendMsg ⟨[PyVal.str "did"], [], [], [], 0⟩
              TickOutcome.timeout).post_batch.length ∨
            (TickOutcome.timeout = .timeout ∧
              (appendMsg ⟨[PyVal.str "did"], [], [], [], 0⟩
                TickOutcome.timeout).post_batch ≠ [])))) ∧
      ((fl.repost = some ((appendMsg ⟨[PyVal.str "did"], [], [], [], 0⟩
            TickOutcome.timeout).repost_batch) ∨ fl.repost = Option.none) ∧
        (fl.repost ≠ Option.none ↔
          (100 ≤ (appendMsg ⟨[PyVal.str "did"], [], [], [], 0⟩
              TickOutcome.timeout).repost_batch.length ∨
            (TickOutcome.timeout = .timeout ∧
              (appendMsg ⟨[PyVal.str "did"], [], [], [], 0⟩
                TickOutcome.timeout).repost_batch ≠ [])))) ∧
      ((fl.like = some ((appendMsg ⟨[PyVal.str "did"], [], [], [], 0⟩
            TickOutcome.timeout).like_batch) ∨ fl.like = Option.none) ∧
        (fl.like ≠ Option.none ↔
          (100 ≤ (appendMsg ⟨[PyVal.str "did"], [], [], [], 0⟩
              TickOutcome.timeout).like_batch.length ∨
            (TickOutcome.timeout = .timeout ∧
              (appendMsg ⟨[PyVal.str "did"], [], [], [], 0⟩
                TickOutcome.timeout).like_batch ≠ [])))) ∧
      ((fl.user ≠ Option.none ∨ fl.post ≠ Option.none ∨ fl.repost ≠ Option.none ∨
          fl.like ≠ Option.none) → st2.last_flush = 4) ∧
      (fl.user = Option.none → fl.post = Option.none → fl.repost = Option.none →
        fl.like = Option.none → st2.last_flush = (⟨[PyVal.str "did"], [], [], [], 0⟩ :
          WorkerState).last_flush) :=
  C5_worker_batch_triggers ⟨[PyVal.str "did"], [], [], [], 0⟩ 4 TickOutcome.timeout
    (by simp)

/-- Helper: the image-collection loop over well-formed `{image:{ref}}`
entries yields exactly the listed refs, in order. -/
theorem collectImageRefs_map (refs : List String) :
    collectImageRefs (refs.map mkImageEntry) = .ok (refs.map PyVal.str) := by
  induction refs with
  | nil => rfl
  | cons r rest ih =>
    simp [collectImageRefs, mkImageEntry, pyGet, ih, Bind.bind, Except.bind,
      Pure.pure, Except.pure]

/-- C6: for every post whose embed discriminator's terminal dotted segment
is `recordWithMedia`, embed extraction sets `has_embed` and `has_record`,
takes the record cid and uri from `embed.record.record`, overwrites
`embed_type` with the terminal segment of the media sub-discriminator, and
resolves the media case (video / images / external) into `embed_refs` or
`external_uri` exactly as the corresponding top-level cases do (one-element
ref list for video, the per-image ref list for images, a one-element uri
list for external). -/
theorem C6_recordWithMedia (rc ru vr eu : String) (refs : List String) :
    processEmbeds (mkDataBlock (mkRecordWithMedia rc ru (mkVideoEmbed vr)))
        initialStorageFrame =
      .ok ⟨true, .str "video", .list [.str vr], .str "", true,
           .list [.str rc], .str ru⟩ ∧
    processEmbeds (mkDataBlock (mkRecordWithMedia rc ru (mkImagesEmbed refs)))
        initialStorageFrame =
      .ok ⟨true, .str "images", .list (refs.map PyVal.str), .str "", true,
           .list [.str rc], .str ru⟩ ∧
    processEmbeds (mkDataBlock (mkRecordWithMedia rc ru (mkExternalEmbed eu)))
        initialStorageFrame =
      .ok ⟨true, .str "external", .list [], .list [.str eu], true,
           .list [.str rc], .str ru⟩ := by
  refine ⟨rfl, ?_, rfl⟩
  have hbind : processEmbeds (mkDataBlock (mkRecordWithMedia rc ru (mkImagesEmbed refs)))
      initialStorageFrame =
      (collectImageRefs (refs.map mkImageEntry)).bind (fun image_refs =>
        .ok ⟨true, .str "images", .list image_refs, .str "", true,
             .list [.str rc], .str ru⟩) := rfl
  rw [hbind, collectImageRefs_map]
  rfl

/-- C7 (code bug): the claim (and the schema) treat `external_uri` and
`record_cid` as single strings, but `_process_embeds` stores each as a
one-element Python list; `_ensure_posts_table` declares both columns plain
`TEXT` (not `TEXT ARRAY`), so the code contradicts its own schema. -/
theorem C7_list_into_text_column (eu rc ru : String) :
    processEmbeds (mkDataBlock (mkExternalEmbed eu)) initialStorageFrame =
      .ok ⟨true, .str "app.bsky.embed.external", .list [], .list [.str eu],
           false, .str "", .str ""⟩ ∧
    processEmbeds (mkDataBlock (mkRecordEmbed rc ru)) initialStorageFrame =
      .ok ⟨false, .str "app.bsky.embed.record", .list [], .str "", true,
           .list [.str rc], .str ru⟩ ∧
    (PyVal.isList (.list [.str eu]) = true ∧ postsColumnIsArray "external_uri" = false) ∧
    (PyVal.isList (.list [.str rc]) = true ∧ postsColumnIsArray "record_cid" = false) :=
  ⟨rfl, rfl, ⟨rfl, by decide⟩, ⟨rfl, by decide⟩⟩

/-- Counterexample to C8 as stated: a two-element batch whose first user
request raises a fatal error.  The claim says only that record is dropped
and the rest of the batch is still written; the enrichment loop has no
per-request handler, so the exception aborts the whole call and `did:b` is
not written — although, as the second conjunct shows, `did:b` alone would
have been processed and stored. -/
theorem C8_counterexample :
    batchInsertUser exampleCheck (fun _ => Option.none) ["did:a", "did:b"] =
      .error .fatalError ∧
    (∃ t, batchInsertUser exampleCheck (fun _ => Option.none) ["did:b"] = .ok t ∧
      t "did:b" = some ⟨"b.bsky.social", ["b.bsky.social"]⟩) :=
  ⟨rfl, ⟨_, rfl, rfl⟩⟩

/-- C8 amended: a fatal per-request exception while enriching one user
aborts the whole flush — the remaining requests of the batch are not
processed at that point and nothing from the batch is written then (the
worker's catch-all logs it and the uncleared batch is retried later) — and
the directory client, whose tenacity retry has no stop condition, retries
the identifier without bound instead of giving up. -/
theorem C8_amended_no_isolation :
    (∀ (check : String → Except PyErr (Option (String × List String)))
      (t : UsersTable) (d : String) (rest : List String) (e : PyErr),
      check d = .error e → batchInsertUser check t (d :: rest) = .error e) ∧
    (∀ (outcomes : Nat → Except PyErr (String × List String)) (e : PyErr),
      (∀ k, outcomes k = .error e) → ∀ fuel, retryWithin outcomes fuel = Option.none) := by
  constructor
  · intro check t d rest e h
    simp [batchInsertUser, buildProcessedBatch, h, Bind.bind, Except.bind]
  · intro outcomes e h fuel
    induction fuel generalizing outcomes with
    | zero => rfl
    | succ m ih =>
      simp only [retryWithin, h 0]
      exact ih (fun k => outcomes (k + 1)) (fun k => h (k + 1))

/-- Witness for C8 at the concrete oracle `exampleCheck`: `did:a` raises,
so the flush of `["did:a", "did:b"]` errors out; and a lookup whose every
attempt fails is still retrying after 1000 attempts. -/
theorem C8_witness :
    (exampleCheck "did:a" = .error .fatalError ∧
      batchInsertUser exampleCheck sampleUsersTable ["did:a", "did:b"] =
        .error .fatalError) ∧
    retryWithin (fun _ => (.error .fatalError : Except PyErr (String × List String)))
      1000 = Option.none :=
  ⟨⟨rfl, C8_amended_no_isolation.1 exampleCheck sampleUsersTable "did:a" ["did:b"]
      .fatalError rfl⟩,
   C8_amended_no_isolation.2 (fun _ => .error .fatalError) .fatalError
      (fun _ => rfl) 1000⟩

/-- Counterexample to C9 as stated: both the processing queue
(`WideSkyProcessor._message_queue`) and the persistence queue
(`WideSkyPSQL._process_queue`) are constructed as `asyncio.Queue()` with the
default `maxsize = 0`, which is not a bound — and a maxsize-0 queue already
holding 5000 items is still not full, so `put_nowait` neither blocks nor
drops. -/
theorem C9_counterexample :
    ¬ (0 < processorMessageQueue.maxsize ∧ 0 < psqlProcessQueue.maxsize) ∧
    AsyncQueue.full ⟨0, List.replicate 5000 (PyVal.str "m")⟩ = false := by
  exact ⟨by decide, rfl⟩

/-- Helper: on a maxsize-0 queue every `put_nowait` succeeds, so `n` puts
always succeed and grow the queue by `n`. -/
theorem putN_unbounded (x : PyVal) (n : Nat) :
    ∀ q : AsyncQueue, q.maxsize = 0 →
      ∃ q2, q.putN x n = .ok q2 ∧ q2.items.length = q.items.length + n ∧
        q2.maxsize = 0 := by
  induction n with
  | zero => intro q h; exact ⟨q, rfl, by simp, h⟩
  | succ m ih =>
    intro q h
    have hput : q.putNowait x = .ok { q with items := q.items ++ [x] } := by
      simp [AsyncQueue.putNowait, AsyncQueue.full, h]
    obtain ⟨q2, h2, hl, hm⟩ := ih { q with items := q.items ++ [x] } h
    refine ⟨q2, ?_, ?_, hm⟩
    · simp [AsyncQueue.putN, hput, h2, Bind.bind, Except.bind]
    · simp only [List.length_append, List.length_singleton] at hl
      omega

/-- C9 amended: the processing and persistence queues are unbounded
(`asyncio.Queue()` with the default `maxsize = 0`): `put_nowait` never
blocks and never drops — every enqueue succeeds immediately — and the
queue length after `n` enqueues is `n`, beyond any fixed bound. -/
theorem C9_amended_queues_unbounded :
    (∀ (q : AsyncQueue) (x : PyVal), q.maxsize = 0 →
      q.putNowait x = .ok { q with items := q.items ++ [x] }) ∧
    (∀ (n : Nat) (x : PyVal),
      (∃ q, processorMessageQueue.putN x n = .ok q ∧ q.items.length = n) ∧
      (∃ q, psqlProcessQueue.putN x n = .ok q ∧ q.items.length = n)) := by
  constructor
  · intro q x h
    simp [AsyncQueue.putNowait, AsyncQueue.full, h]
  · intro n x
    constructor
    · obtain ⟨q2, h2, hl, _⟩ := putN_unbounded x n processorMessageQueue rfl
      exact ⟨q2, h2, by simpa [processorMessageQueue] using hl⟩
    · obtain ⟨q2, h2, hl, _⟩ := putN_unbounded x n psqlProcessQueue rfl
      exact ⟨q2, h2, by simpa [psqlProcessQueue] using hl⟩

/-- Witness for C9 on concrete queues: a `put_nowait` on a maxsize-0 queue
appends, and seven enqueues on the persistence queue leave seven items. -/
theorem C9_witness :
    ((⟨0, [PyVal.str "m"]⟩ : AsyncQueue).putNowait (PyVal.str "m") =
      .ok ⟨0, [PyVal.str "m", PyVal.str "m"]⟩) ∧
    (∃ q, psqlProcessQueue.putN (PyVal.str "m") 7 = .ok q ∧ q.items.length = 7) :=
  ⟨C9_amended_queues_unbounded.1 ⟨0, [PyVal.str "m"]⟩ (PyVal.str "m") rfl,
   (C9_amended_queues_unbounded.2 7 (PyVal.str "m")).2⟩

/-- C10: when a persistence worker dequeues the `-1` shutdown sentinel it
breaks out of its loop before any flush check runs: the iteration exits
performing no flush (the result is never a continuation), so whatever the
four in-memory batches hold at that moment is discarded and never written. -/
theorem C10_sentinel_discards_batches (st : WorkerState) (now : ℚ) :
    workerIter defaultBatchSize defaultBatchTimeout st now (.msg .sentinel) =
      .exit (max 0 (defaultBatchTimeout - (now - st.last_flush))) ∧
    ∀ st2 fl t, workerIter defaultBatchSize defaultBatchTimeout st now
      (.msg .sentinel) ≠ .cont st2 fl t :=
  ⟨rfl, fun _ _ _ h => nomatch h⟩

end WideSky
